import Mathlib

/-
Verification of the ETL transformation core of `processing/loaddata.py`
(scieloorg/production): field mapping of journal and article records into
flat index documents, derived-metric calculators, the change-event stream
adapter over the history feed, and the sync driver's error policy.

The Python code is shallowly embedded: records become structures, Python
dicts become association lists (insertion order preserved, first match on
lookup since the code never assigns the same key twice except the
`aff_countries` re-assignment, which keeps its position), Python `None`
becomes `Option.none`, and operations that would raise an uncaught
exception are modelled with explicit error results.
-/

set_option maxRecDepth 8192

namespace LoadData

/-- A value stored in a flat index document: Python str, int, list of str,
or `None` (the code can store `None` under the `license` key). -/
inductive Val where
  | vs (s : String)
  | vi (n : Int)
  | vls (l : List String)
  | vnull
deriving DecidableEq, Repr

/-- A Python dict with string keys and string values (permission blocks,
affiliation dicts). -/
abbrev PyDict := List (String × String)

/-- `d.get(k)`: first-match lookup in the association-list model. -/
def dictGet (d : PyDict) (k : String) : Option String :=
  match d with
  | [] => none
  | (k2, v) :: rest => if k2 = k then some v else dictGet rest k

/-- `d.get(k, default)`. -/
def dictGetD (d : PyDict) (k defv : String) : String :=
  (dictGet d k).getD defv

/-- Lookup in a flat index document (Python `data[k]` / `k in data`). -/
def docLookup : List (String × Val) → String → Option Val
  | [], _ => none
  | (k2, v) :: rest, k => if k2 = k then some v else docLookup rest k

/-- Python `s or default` on an optional string: `None` and `""` are falsy. -/
def strOr (s d : String) : String := if s = "" then d else s

/-- Python `x or default` where `x` is `None` or a string. -/
def pyOr (v : Option String) (d : String) : String :=
  match v with
  | some s => strOr s d
  | none => d

/-- Python `xs or default` on a list: an empty list is falsy. -/
def listOr {α : Type} (l d : List α) : List α := if l.isEmpty then d else l

/-- Python `xs or []` where `xs` is `None` or a list (`document.citations or []`). -/
def pyOrEmptyList {α : Type} (v : Option (List α)) : List α :=
  match v with
  | some l => listOr l []
  | none => []

/-- Python slice `s[0:n]` on a string. -/
def pySlice (s : String) (n : Nat) : String := String.mk (s.data.take n)

/-- Python `str.split(sep)` for a one-character separator, on the char list. -/
def splitOnChar (sep : Char) : List Char → List (List Char)
  | [] => [[]]
  | c :: cs =>
    let r := splitOnChar sep cs
    if c = sep then [] :: r
    else
      match r with
      | [] => [[c]]
      | g :: gs => (c :: g) :: gs

/-- Reads a non-empty all-digit char list as a number, accumulator form. -/
def digitsToNatAux (acc : Nat) : List Char → Option Nat
  | [] => some acc
  | c :: rest =>
    if c.isDigit then digitsToNatAux (10 * acc + (c.toNat - 48)) rest
    else none

/-- Reads a non-empty all-digit char list as a number; fails otherwise. -/
def digitsToNat : List Char → Option Nat
  | [] => none
  | cs => digitsToNatAux 0 cs

/-- Whitespace stripped by Python numeric parsing. -/
def isPySpace (c : Char) : Bool :=
  c == ' ' || c == '\t' || c == '\n' || c == '\r'

/-- Python `int(s)` on a string: optional surrounding whitespace, optional
sign, then decimal digits; anything else raises (modelled as `none`). -/
def pyStrToInt (s : String) : Option Int :=
  let t := ((s.data.dropWhile isPySpace).reverse.dropWhile isPySpace).reverse
  match t with
  | '-' :: rest => (digitsToNat rest).map (fun n => -(n : Int))
  | '+' :: rest => (digitsToNat rest).map (fun n => (n : Int))
  | rest => (digitsToNat rest).map (fun n => (n : Int))

/-- A raw page-field value as it reaches `pages`: an int, a string, or `None`. -/
inductive PyVal where
  | vint (n : Int)
  | vstr (s : String)
  | vnone
deriving DecidableEq, Repr

/-- Python `int(x)`: ints pass through, strings are parsed, `None` raises. -/
def pyToInt : PyVal → Option Int
  | PyVal.vint n => some n
  | PyVal.vstr s => pyStrToInt s
  | PyVal.vnone => none

/-- The `try: pages = int(last)-int(first) except: pages = 0` block of
`pages` in loaddata.py. -/
def pagesRaw (first last : PyVal) : Int :=
  match pyToInt last, pyToInt first with
  | some l, some f => l - f
  | _, _ => 0

/-- `pages(first, last)` from loaddata.py: difference of the parsed ints
(0 on parse failure), clamped below at 0. -/
def pages (first last : PyVal) : Int :=
  if 0 ≤ pagesRaw first last then pagesRaw first last else 0

/-- A calendar date as produced by `datetime.strptime(s, "%Y-%m-%d")`. -/
structure Date where
  year : Nat
  month : Nat
  day : Nat
deriving DecidableEq, Repr

/-- Proleptic Gregorian leap-year test. -/
def isLeapYear (y : Nat) : Bool :=
  (y % 4 == 0 && y % 100 != 0) || y % 400 == 0

/-- Number of days in a month of the proleptic Gregorian calendar. -/
def daysInMonth (y m : Nat) : Nat :=
  if m == 2 then (if isLeapYear y then 29 else 28)
  else if m == 4 || m == 6 || m == 9 || m == 11 then 30
  else 31

/-- Days in the months strictly before month `m` of year `y`. -/
def daysBeforeMonth (y m : Nat) : Nat :=
  ((List.range (m - 1)).map (fun i => daysInMonth y (i + 1))).sum

/-- Proleptic Gregorian ordinal of a date, as in Python
`datetime.toordinal` (0001-01-01 is day 1); the day difference of two
midnight datetimes is the difference of their ordinals. -/
def Date.toOrdinal (d : Date) : Nat :=
  365 * (d.year - 1) + (d.year - 1) / 4 - (d.year - 1) / 100 + (d.year - 1) / 400
    + daysBeforeMonth d.year d.month + d.day

/-- `datetime.strptime(s, "%Y-%m-%d")`: exactly four year digits, one or
two month and day digits, dashes in between, nothing else, and the result
must be a valid date (month 1-12, day within the month, year at least 1);
otherwise it raises (modelled as `none`). -/
def parseDateYMD (s : String) : Option Date :=
  match splitOnChar '-' s.data with
  | [ys, ms, ds] =>
    if ys.length = 4 ∧ 1 ≤ ms.length ∧ ms.length ≤ 2 ∧ 1 ≤ ds.length ∧ ds.length ≤ 2 then
      match digitsToNat ys, digitsToNat ms, digitsToNat ds with
      | some y, some m, some d =>
        if 1 ≤ y ∧ 1 ≤ m ∧ m ≤ 12 ∧ 1 ≤ d ∧ d ≤ daysInMonth y m then
          some ⟨y, m, d⟩
        else none
      | _, _, _ => none
    else none
  | _ => none

/-- `acceptancedelta(received, accepted)` from loaddata.py: parse both as
`%Y-%m-%d` (a failure, including `None` input, is caught and yields
`None`), then return the day difference `accepted - received` if it is
non-negative, else fall through to `None`. -/
def acceptancedelta (received accepted : Option String) : Option Int :=
  match received with
  | none => none
  | some rs =>
    match parseDateYMD rs with
    | none => none
    | some rd =>
      match accepted with
      | none => none
      | some ws =>
        match parseDateYMD ws with
        | none => none
        | some wd =>
          let days : Int := (wd.toOrdinal : Int) - (rd.toOrdinal : Int)
          if 0 ≤ days then some days else none

/-- The ISO-3166 table of `choices.ISO_3166` (code to country name),
injected explicitly instead of read from a module-level global. -/
abbrev IsoTable := List (String × String)

/-- `country in choices.ISO_3166`: membership among the codes. -/
def isoHasCode (iso : IsoTable) (c : String) : Bool :=
  iso.any (fun p => p.1 == c)

/-- Lookup in `ISO_3166_COUNTRY_AS_KEY = {value: key for key, value in
choices.ISO_3166.items()}`: name to code, a later pair overwriting an
earlier one with the same name, as in the dict comprehension. -/
def countryAsKeyLookup (iso : IsoTable) (name : String) : Option String :=
  (iso.reverse.find? (fun p => p.2 == name)).map Prod.fst

/-- `country(country)` from loaddata.py: a recognized code is returned
unchanged, a recognized country name maps to its code, anything else to
the sentinel `"undefined"`. -/
def country (iso : IsoTable) (c : String) : String :=
  if isoHasCode iso c then c
  else
    match countryAsKeyLookup iso c with
    | some code => code
    | none => "undefined"

/-- The two license lines shared by `fmt_journal` and `fmt_document`:
`permission = document.permissions or {'id': 'undefined'}` (Python `or`
treats both `None` and the empty dict as falsy) followed by
`permission.get('id' or 'undefined')`; the Python expression
`('id' or 'undefined')` evaluates to `'id'`, so the lookup key is always
`'id'`, and `get` yields `None` when the key is missing. -/
def licenseOf (permissions : Option PyDict) : Option String :=
  let permission : PyDict :=
    match permissions with
    | some d => if d.isEmpty then [("id", "undefined")] else d
    | none => [("id", "undefined")]
  dictGet permission "id"

/-- Embeds an optional string as a stored document value (`None` is
stored as Python `None`). -/
def valOfOptStr : Option String → Val
  | some s => Val.vs s
  | none => Val.vnull

/-- A journal record as consumed by `fmt_journal`. -/
structure Journal where
  collection_acronym : String
  scielo_issn : String
  subject_areas : List String
  creation_date : String
  current_status : String
  title : String
  permissions : Option PyDict
deriving DecidableEq, Repr

/-- `fmt_journal(document)` from loaddata.py, keys in assignment order. -/
def fmt_journal (document : Journal) : List (String × Val) :=
  [ ("id", Val.vs (document.collection_acronym ++ "_" ++ document.scielo_issn))
  , ("issn", Val.vs document.scielo_issn)
  , ("collection", Val.vs document.collection_acronym)
  , ("subject_areas", Val.vls document.subject_areas)
  , ("included_at_year", Val.vs (pySlice document.creation_date 4))
  , ("status", Val.vs document.current_status)
  , ("title", Val.vs document.title)
  , ("license", valOfOptStr (licenseOf document.permissions)) ]

/-- The nested journal reference of an article record. -/
structure ArticleJournal where
  scielo_issn : String
  title : String
  subject_areas : List String
deriving DecidableEq, Repr

/-- The nested issue reference of an article record. -/
structure Issue where
  type : String
deriving DecidableEq, Repr

/-- An article record as consumed by `fmt_document`. -/
structure Article where
  collection_acronym : String
  publisher_id : String
  journal : ArticleJournal
  issue : Option Issue
  creation_date : String
  processing_date : String
  publication_date : String
  document_type : String
  start_page : PyVal
  end_page : PyVal
  languages : List String
  original_language : Option String
  mixed_affiliations : List PyDict
  citations : Option (List String)
  authors : Option (List String)
  permissions : Option PyDict
  doi : Option String
  receive_date : Option String
  acceptance_date : Option String
deriving DecidableEq, Repr

/-- The unconditional assignments of `fmt_document`, keys in assignment
order (`aff_countries` is assigned `['undefined']` and then conditionally
re-assigned; the final value is recorded at its position). -/
def fmt_document_base (iso : IsoTable) (document : Article) : List (String × Val) :=
  [ ("id", Val.vs (document.collection_acronym ++ "_" ++ document.publisher_id))
  , ("pid", Val.vs document.publisher_id)
  , ("issn", Val.vs document.journal.scielo_issn)
  , ("journal_title", Val.vs document.journal.title)
  , ("issue", Val.vs (document.collection_acronym ++ "_" ++ pySlice document.publisher_id 18))
  , ("issue_type", Val.vs (match document.issue with
      | some i => i.type
      | none => "undefined"))
  , ("creation_year", Val.vs (pySlice document.creation_date 4))
  , ("creation_date", Val.vs document.creation_date)
  , ("processing_year", Val.vs (pySlice document.processing_date 4))
  , ("processing_date", Val.vs document.processing_date)
  , ("publication_date", Val.vs document.publication_date)
  , ("publication_year", Val.vs (pySlice document.publication_date 4))
  , ("subject_areas", Val.vls (listOr document.journal.subject_areas ["undefined"]))
  , ("collection", Val.vs document.collection_acronym)
  , ("document_type", Val.vs document.document_type)
  , ("pages", Val.vi (pages document.start_page document.end_page))
  , ("languages", Val.vls
      ((document.languages ++ [pyOr document.original_language "undefined"]).dedup))
  , ("aff_countries", Val.vls
      (if document.mixed_affiliations.isEmpty then ["undefined"]
       else ((document.mixed_affiliations.map
               (fun aff => country iso (dictGetD aff "country" "undefined"))).dedup)))
  , ("citations", Val.vi ((pyOrEmptyList document.citations).length : Nat))
  , ("authors", Val.vi ((pyOrEmptyList document.authors).length : Nat))
  , ("license", valOfOptStr (licenseOf document.permissions)) ]

/-- The `if document.doi:` block of `fmt_document` (an absent or empty
DOI is falsy and adds nothing). The prefix is the text before the first
`/`, via Python `doi.split('/')[0]`. -/
def doiFields (doi : Option String) : List (String × Val) :=
  match doi with
  | some d =>
    if d = "" then []
    else [ ("doi", Val.vs d)
         , ("doi_prefix", Val.vs (String.mk ((splitOnChar '/' d.data).headD []))) ]
  | none => []

/-- The trailing `delta = acceptancedelta(...); if delta:` block of
`fmt_document`: Python `if delta:` is false both for `None` and for `0`,
so a zero delta stores nothing. -/
def acceptanceDeltaFields (received accepted : Option String) : List (String × Val) :=
  match acceptancedelta received accepted with
  | some delta => if delta = 0 then [] else [("acceptance_delta", Val.vi delta)]
  | none => []

/-- `fmt_document(document)` from loaddata.py. -/
def fmt_document (iso : IsoTable) (document : Article) : List (String × Val) :=
  fmt_document_base iso document
    ++ doiFields document.doi
    ++ acceptanceDeltaFields document.receive_date document.acceptance_date

/-- A change event yielded by the `documents` generator: the payload of a
delete is the `delete_params` dict, the payload of an add the mapped
document. -/
inductive Event where
  | del (params : List (String × Val))
  | add (doc : List (String × Val))
deriving DecidableEq, Repr

/-- True exactly on delete events. -/
def Event.isDel : Event → Bool
  | Event.del _ => true
  | Event.add _ => false

/-- The outcome of processing one history item in the `documents`
generator: either the events it yields, or the events yielded before an
uncaught exception terminates the generator. -/
inductive StepResult where
  | ok (events : List Event)
  | err (emitted : List Event)
deriving DecidableEq, Repr

/-- The events a step emitted, whether or not it then raised. -/
def StepResult.events : StepResult → List Event
  | StepResult.ok evs => evs
  | StepResult.err evs => evs

/-- A history entry `(item[0])` of the history feed; the type of `code`
differs between the endpoints (a string for articles, a sequence for
journals), so it is a parameter. -/
structure HistoryEntry (γ : Type) where
  event : String
  collection : String
  code : γ

/-- Outcome of the `if history.event == 'delete':` branch. -/
inductive DelOutcome where
  | crash
  | skip
  | emit (evs : List Event)

/-- One iteration of the history-mode loop of `documents` in loaddata.py,
processing `item = (history, current-record-or-None)`.

`resolve` performs the endpoint-specific code resolution including the
trailing `or ''` (`history.code or ''` for articles,
`history.code[0] or ''` for journals); `none` means the resolution itself
raises (journal `code[0]` on an empty sequence). An empty resolved code
hits `continue`, skipping the item. Otherwise the delete event carries
`{'collection': ..., codeKey: code, 'id': collection + '_' + code}` and
the loop falls through to `doc_ret = item[1]` and
`yield ('add', fmt(doc_ret))` unconditionally — applying `fmt` to `None`
raises (attribute access on `None`), which is modelled as `err` with the
events already yielded. The stray `import pdb; pdb.set_trace()` on the
delete path is an interactive-debugger artifact and is not modelled. -/
def documentsHistoryStep {γ R : Type} (codeKey : String) (resolve : γ → Option String)
    (fmt : R → List (String × Val)) (item : HistoryEntry γ × Option R) : StepResult :=
  let history := item.1
  let delPart : DelOutcome :=
    if history.event = "delete" then
      match resolve history.code with
      | none => DelOutcome.crash
      | some code =>
        if code = "" then DelOutcome.skip
        else DelOutcome.emit
          [Event.del [ ("collection", Val.vs history.collection)
                     , (codeKey, Val.vs code)
                     , ("id", Val.vs (history.collection ++ "_" ++ code)) ]]
    else DelOutcome.emit []
  match delPart with
  | DelOutcome.crash => StepResult.err []
  | DelOutcome.skip => StepResult.ok []
  | DelOutcome.emit evs =>
    match item.2 with
    | some r => StepResult.ok (evs ++ [Event.add (fmt r)])
    | none => StepResult.err evs

/-- Article code resolution: `delete_params['code'] = history.code or ''`;
always defined. -/
def articleResolve (code : Option String) : Option String :=
  some (pyOr code "")

/-- Journal code resolution: `delete_params['issn'] = history.code[0] or ''`;
indexing an empty sequence raises `IndexError` (`none`). -/
def journalResolve : List String → Option String
  | [] => none
  | c :: _ => some (strOr c "")

/-- The history-mode step of `documents` for the article endpoint. -/
def documentsHistoryArticle (iso : IsoTable)
    (item : HistoryEntry (Option String) × Option Article) : StepResult :=
  documentsHistoryStep "code" articleResolve (fmt_document iso) item

/-- The history-mode step of `documents` for the journal endpoint. -/
def documentsHistoryJournal
    (item : HistoryEntry (List String) × Option Journal) : StepResult :=
  documentsHistoryStep "issn" journalResolve fmt_journal item

/-- An event as consumed by the `run` loop, which reads only the event
tag and `document['id']` (both payload kinds always carry an `id`). -/
inductive RunEvent where
  | rdel (id : String)
  | radd (id : String)
deriving DecidableEq, Repr

/-- Result of an `ES.delete` call: success, `NotFoundError`, or any other
error. -/
inductive DelResult where
  | ok
  | notFound
  | otherError
deriving DecidableEq, Repr

/-- Result of an `ES.index` (upsert) call. -/
inductive AddResult where
  | ok
  | error
deriving DecidableEq, Repr

/-- The search index as an oracle: what each delete / upsert call
returns, as a function of the document id. -/
structure ESBehavior where
  del : String → DelResult
  add : String → AddResult

/-- What the `run` loop logs and does for one delete event: success,
`NotFoundError` swallowed with a debug log, or any other error swallowed
with an error log. -/
inductive LoopAction where
  | removed (id : String)
  | alreadyRemoved (id : String)
  | deleteError (id : String)
  | indexed (id : String)
deriving DecidableEq, Repr

/-- The action of the delete branch of the `run` loop (the whole
`try: ES.delete ... except NotFoundError ... except ...` block: every
outcome is caught and processing continues). -/
def delAction (b : ESBehavior) (id : String) : LoopAction :=
  match b.del id with
  | DelResult.ok => LoopAction.removed id
  | DelResult.notFound => LoopAction.alreadyRemoved id
  | DelResult.otherError => LoopAction.deleteError id

/-- The expected single action for one event when nothing aborts. -/
def eventAction (b : ESBehavior) : RunEvent → LoopAction
  | RunEvent.rdel id => delAction b id
  | RunEvent.radd id => LoopAction.indexed id

/-- The event loop of `run` in loaddata.py: deletes are wrapped in a
try/except that swallows every error and continues; the `ES.index` upsert
on the add branch is not wrapped, so an error there propagates and
terminates the run (second component `true`), leaving later events
unprocessed. Returns the actions performed, in order; no call is
retried. -/
def runLoop (b : ESBehavior) : List RunEvent → List LoopAction × Bool
  | [] => ([], false)
  | RunEvent.rdel id :: rest =>
    let r := runLoop b rest
    (delAction b id :: r.1, r.2)
  | RunEvent.radd id :: rest =>
    match b.add id with
    | AddResult.ok =>
      let r := runLoop b rest
      (LoopAction.indexed id :: r.1, r.2)
    | AddResult.error => ([], true)

/-- An external call made by `run`. -/
inductive ExtCall where
  | indicesCreate
  | metadataFetch
  | esDelete (id : String)
  | esIndex (id : String)
deriving DecidableEq, Repr

/-- The external calls issued by the `run` loop: each delete event issues
an `ES.delete` (whatever it returns, the loop continues); each add event
issues an `ES.index`, and on an error there the run terminates. -/
def loopCalls (b : ESBehavior) : List RunEvent → List ExtCall
  | [] => []
  | RunEvent.rdel id :: rest => ExtCall.esDelete id :: loopCalls b rest
  | RunEvent.radd id :: rest =>
    ExtCall.esIndex id ::
      (match b.add id with
       | AddResult.ok => loopCalls b rest
       | AddResult.error => [])

/-- The external-call trace of `run(doc_type, ...)` in loaddata.py. The
body first attempts `ES.indices.create` inside a try/except (the call is
made regardless of the selector), then dispatches on `doc_type`; an
unknown selector logs an error and calls `exit()`, so nothing further
happens. A valid selector reaches the `for` loop over the `documents`
generator, whose first iteration performs the articlemeta fetch before
any index write. The events the generator would yield are passed in as
`events`. -/
def run (b : ESBehavior) (doc_type : String) (events : List RunEvent) : List ExtCall :=
  ExtCall.indicesCreate ::
    (if doc_type = "journal" ∨ doc_type = "article" then
       ExtCall.metadataFetch :: loopCalls b events
     else [])

/-- A small concrete ISO-3166 table for witnesses. -/
def iso0 : IsoTable := [("BR", "Brazil")]

/-- A concrete article record whose receive and acceptance dates are
equal and parse as `%Y-%m-%d`. -/
def art0 : Article :=
  ⟨ "scl", "S0001-00012020000100001"
  , ⟨"0001-0001", "J", ["Medicine"]⟩
  , none
  , "2020-01-01", "2020-01-02", "2020-01-03"
  , "research-article"
  , PyVal.vstr "1", PyVal.vstr "10"
  , ["en"], some "en"
  , [], none, none
  , none, none
  , some "2020-01-05", some "2020-01-05" ⟩

/-- The journal record of the end-to-end example in the spec. -/
def j9 : Journal :=
  ⟨"scl", "0001-0001", ["Medicine"], "2015-06-01", "current", "T", none⟩

/-- A journal record whose permission block exists but carries no `id`
key. -/
def jNoId : Journal :=
  ⟨"scl", "0001-0001", ["Medicine"], "2015-06-01", "current", "T"
  , some [("url", "http://x")]⟩

/-- An index oracle on which every call succeeds. -/
def bAllOk : ESBehavior := ⟨fun _ => DelResult.ok, fun _ => AddResult.ok⟩

/-- An index oracle on which every delete fails with an unexpected error
and every upsert succeeds. -/
def bDelFail : ESBehavior := ⟨fun _ => DelResult.otherError, fun _ => AddResult.ok⟩

/-- An index oracle on which every upsert fails. -/
def bAddFail : ESBehavior := ⟨fun _ => DelResult.ok, fun _ => AddResult.error⟩

/-- Lookup distributes over concatenation of document fragments. -/
theorem docLookup_append (xs ys : List (String × Val)) (k : String) :
    docLookup (xs ++ ys) k = (docLookup xs k).or (docLookup ys k) := by
  induction xs with
  | nil => simp [docLookup, Option.or]
  | cons x rest ih =>
    cases x with
    | mk xk xv =>
      by_cases h : xk = k
      · simp [docLookup, h, Option.or]
      · simp [docLookup, h, ih]

/-- No unconditional field of `fmt_document` is named `acceptance_delta`. -/
theorem docLookup_base_delta (iso : IsoTable) (a : Article) :
    docLookup (fmt_document_base iso a) "acceptance_delta" = none := rfl

/-- The DOI block never contributes an `acceptance_delta` field. -/
theorem docLookup_doiFields_delta (d : Option String) :
    docLookup (doiFields d) "acceptance_delta" = none := by
  cases d with
  | none => rfl
  | some s =>
    simp only [doiFields]
    by_cases h : s = ""
    · rw [if_pos h]
      rfl
    · rw [if_neg h]
      rfl

/-- Lookup of `acceptance_delta` in the trailing delta block. -/
theorem docLookup_deltaFields (r a : Option String) :
    docLookup (acceptanceDeltaFields r a) "acceptance_delta" =
      match acceptancedelta r a with
      | some d => if d = 0 then none else some (Val.vi d)
      | none => none := by
  simp only [acceptanceDeltaFields]
  cases acceptancedelta r a with
  | none => rfl
  | some d =>
    dsimp only
    by_cases h : d = 0
    · rw [if_pos h, if_pos h]
      rfl
    · rw [if_neg h, if_neg h]
      rfl

/-- Case analysis of the license value actually stored: the `id` value of
a truthy permission block, the sentinel for an absent or empty block, and
Python `None` for a non-empty block without an `id` key. -/
theorem valOfOptStr_licenseOf (p : Option PyDict) :
    valOfOptStr (licenseOf p) =
      match p with
      | none => Val.vs "undefined"
      | some d =>
        if d.isEmpty then Val.vs "undefined"
        else
          match dictGet d "id" with
          | some s => Val.vs s
          | none => Val.vnull := by
  cases p with
  | none => rfl
  | some d =>
    by_cases h : d.isEmpty
    · simp [licenseOf, h, valOfOptStr, dictGet]
    · simp only [licenseOf, h, if_neg, Bool.false_eq_true, if_false]
      cases hg : dictGet d "id" with
      | none => simp [valOfOptStr]
      | some s => simp [valOfOptStr]

/-- C7: `pages` parses both inputs as Python ints, returns 0 when either
fails to parse, and otherwise returns `last - first` clamped below at 0;
the result is always non-negative, and on the spec's concrete examples
`pages(10, 15) = 5`, `pages(15, 10) = 0`, `pages("x", 5) = 0`. -/
theorem C7_pages_theorem :
    (∀ (first last : PyVal), 0 ≤ pages first last) ∧
    (∀ (first last : PyVal) (fi li : Int),
       pyToInt first = some fi → pyToInt last = some li →
       pages first last = max (li - fi) 0) ∧
    (∀ (first last : PyVal), pyToInt first = none ∨ pyToInt last = none →
       pages first last = 0) ∧
    pages (PyVal.vint 10) (PyVal.vint 15) = 5 ∧
    pages (PyVal.vint 15) (PyVal.vint 10) = 0 ∧
    pages (PyVal.vstr "x") (PyVal.vint 5) = 0 := by
  refine ⟨?_, ?_, ?_, by decide, by decide, by decide⟩
  · intro f l
    unfold pages
    split
    · assumption
    · exact le_refl 0
  · intro f l fi li h1 h2
    have hraw : pagesRaw f l = li - fi := by simp [pagesRaw, h1, h2]
    unfold pages
    rw [hraw]
    rcases le_or_lt 0 (li - fi) with h | h
    · rw [if_pos h, max_eq_left h]
    · rw [if_neg (not_le.mpr h), max_eq_right (le_of_lt h)]
  · intro f l h
    rcases h with h | h
    · cases hl : pyToInt l <;> simp [pages, pagesRaw, h, hl]
    · cases hf : pyToInt f <;> simp [pages, pagesRaw, h, hf]

/-- C7 witness: the parsed-inputs formula and the parse-failure clause of
`C7_pages_theorem` instantiated at concrete inputs. -/
theorem C7_pages_witness :
    pages (PyVal.vint 3) (PyVal.vint 10) = max ((10 : Int) - 3) 0 ∧
    pages (PyVal.vstr "q") (PyVal.vint 1) = 0 :=
  ⟨C7_pages_theorem.2.1 (PyVal.vint 3) (PyVal.vint 10) 3 10 rfl rfl,
   C7_pages_theorem.2.2.1 (PyVal.vstr "q") (PyVal.vint 1) (Or.inl rfl)⟩

/-- C8: `country` returns a recognized ISO code unchanged, maps a known
country name (via the reversed table) to its code, and yields the
sentinel `"undefined"` otherwise; it is a pure function of the input and
the injected table. -/
theorem C8_country_theorem (iso : IsoTable) (c : String) :
    (isoHasCode iso c = true → country iso c = c) ∧
    (isoHasCode iso c = false →
       ∀ k, countryAsKeyLookup iso c = some k → country iso c = k) ∧
    (isoHasCode iso c = false → countryAsKeyLookup iso c = none →
       country iso c = "undefined") := by
  refine ⟨fun h => ?_, fun h k hk => ?_, fun h hk => ?_⟩
  · simp [country, h]
  · simp [country, h, hk]
  · simp [country, h, hk]

/-- C8 witness: on the table `[("BR", "Brazil")]`, the three branches of
`C8_country_theorem` give `country "BR" = "BR"`,
`country "Brazil" = "BR"`, and `country "Atlantis" = "undefined"`. -/
theorem C8_country_witness :
    country iso0 "BR" = "BR" ∧ country iso0 "Brazil" = "BR" ∧
    country iso0 "Atlantis" = "undefined" :=
  ⟨(C8_country_theorem iso0 "BR").1 rfl,
   (C8_country_theorem iso0 "Brazil").2.1 rfl "BR" rfl,
   (C8_country_theorem iso0 "Atlantis").2.2 rfl rfl⟩

/-- C9: for every journal record the mapped document's `id` is the
collection acronym, an underscore, and the scielo issn concatenated; and
on the concrete record of the spec's end-to-end example, `fmt_journal`
yields exactly the expected document. -/
theorem C9_fmt_journal_theorem :
    (∀ (j : Journal), docLookup (fmt_journal j) "id" =
       some (Val.vs (j.collection_acronym ++ "_" ++ j.scielo_issn))) ∧
    fmt_journal j9 =
      [ ("id", Val.vs "scl_0001-0001")
      , ("issn", Val.vs "0001-0001")
      , ("collection", Val.vs "scl")
      , ("subject_areas", Val.vls ["Medicine"])
      , ("included_at_year", Val.vs "2015")
      , ("status", Val.vs "current")
      , ("title", Val.vs "T")
      , ("license", Val.vs "undefined") ] :=
  ⟨fun _ => rfl, by decide⟩

/-- C10: on the journal endpoint, a history delete entry whose code
sequence is empty makes the `documents` step raise an out-of-bounds error
(`code[0]` on an empty sequence), yielding an error with no events rather
than skipping the entry. -/
theorem C10_journal_empty_code_theorem (h : HistoryEntry (List String))
    (r : Option Journal) (hev : h.event = "delete") (hcode : h.code = []) :
    documentsHistoryJournal (h, r) = StepResult.err [] ∧
    documentsHistoryJournal (h, r) ≠ StepResult.ok [] := by
  have he : documentsHistoryJournal (h, r) = StepResult.err [] := by
    simp [documentsHistoryJournal, documentsHistoryStep, journalResolve, hev, hcode]
  refine ⟨he, ?_⟩
  rw [he]
  intro hcon
  cases hcon

/-- C10 witness: `C10_journal_empty_code_theorem` at the concrete entry
`{event: "delete", collection: "scl", code: []}` with no current
record. -/
theorem C10_journal_empty_code_witness :
    documentsHistoryJournal (⟨"delete", "scl", []⟩, (none : Option Journal)) =
      StepResult.err [] ∧
    documentsHistoryJournal (⟨"delete", "scl", []⟩, (none : Option Journal)) ≠
      StepResult.ok [] :=
  C10_journal_empty_code_theorem ⟨"delete", "scl", []⟩ none rfl rfl

/-- C1 counterexample: on a record whose receive and acceptance dates are
both `"2020-01-05"`, both dates parse, the day difference is 0 (hence
non-negative), yet the mapped document has no `acceptance_delta` field:
in the source, `if delta:` is false for a zero delta, so the claim's "when
the two dates are equal, `acceptance_delta` is present with value 0" fails. -/
theorem C1_acceptance_delta_counterexample :
    parseDateYMD "2020-01-05" = some ⟨2020, 1, 5⟩ ∧
    art0.receive_date = some "2020-01-05" ∧
    art0.acceptance_date = some "2020-01-05" ∧
    acceptancedelta art0.receive_date art0.acceptance_date = some 0 ∧
    docLookup (fmt_document iso0 art0) "acceptance_delta" = none := by
  refine ⟨by decide, rfl, rfl, by decide, ?_⟩
  rfl

/-- C1 amended: the mapped document carries `acceptance_delta` exactly
when both dates parse and the day difference is strictly positive; on a
parse failure, a negative difference, or a zero difference the field is
absent entirely. The second and third conjuncts relate `acceptancedelta`
to date parsing and the ordinal day difference. -/
theorem C1_acceptance_delta_theorem :
    (∀ (iso : IsoTable) (a : Article),
       docLookup (fmt_document iso a) "acceptance_delta" =
         match acceptancedelta a.receive_date a.acceptance_date with
         | some d => if d = 0 then none else some (Val.vi d)
         | none => none) ∧
    (∀ (rs ws : String) (rd wd : Date),
       parseDateYMD rs = some rd → parseDateYMD ws = some wd →
       acceptancedelta (some rs) (some ws) =
         (if 0 ≤ (wd.toOrdinal : Int) - (rd.toOrdinal : Int) then
            some ((wd.toOrdinal : Int) - (rd.toOrdinal : Int))
          else none)) ∧
    (∀ (rs ws : String), parseDateYMD rs = none ∨ parseDateYMD ws = none →
       acceptancedelta (some rs) (some ws) = none) := by
  refine ⟨?_, ?_, ?_⟩
  · intro iso a
    have e : fmt_document iso a =
        fmt_document_base iso a ++ doiFields a.doi
          ++ acceptanceDeltaFields a.receive_date a.acceptance_date := rfl
    rw [e, docLookup_append, docLookup_append, docLookup_base_delta,
        docLookup_doiFields_delta, docLookup_deltaFields]
    simp [Option.or]
  · intro rs ws rd wd h1 h2
    simp [acceptancedelta, h1, h2]
  · intro rs ws h
    rcases h with h | h
    · simp [acceptancedelta, h]
    · cases hr : parseDateYMD rs with
      | none => simp [acceptancedelta, hr]
      | some rd => simp [acceptancedelta, hr, h]

/-- C1 witness: the day-difference formula of
`C1_acceptance_delta_theorem` at `2020-01-01` and `2020-01-10` (nine
days), and the parse-failure clause at an unparseable date. -/
theorem C1_acceptance_delta_witness :
    acceptancedelta (some "2020-01-01") (some "2020-01-10") = some 9 ∧
    acceptancedelta (some "bad") (some "2020-01-01") = none :=
  ⟨C1_acceptance_delta_theorem.2.1 "2020-01-01" "2020-01-10"
     ⟨2020, 1, 1⟩ ⟨2020, 1, 10⟩ rfl rfl,
   C1_acceptance_delta_theorem.2.2 "bad" "2020-01-01" (Or.inl rfl)⟩

/-- C2 counterexample: a journal whose permission block exists but has no
`id` key gets `license = None` (Python `None`, stored under the key), so
the claim that `license` is never null fails: `permission.get('id' or
'undefined')` looks up the literal key `'id'` and `get` returns `None`. -/
theorem C2_license_counterexample :
    jNoId.permissions ≠ none ∧
    docLookup (fmt_journal jNoId) "license" = some Val.vnull := by
  refine ⟨by decide, ?_⟩
  rfl

/-- C2 amended: both mappers always store a `license` key, whose value is
the permission block's `id` entry when the block is truthy and carries
one, the sentinel `"undefined"` when the block is absent or empty, and
Python `None` when a non-empty block has no `id` key. -/
theorem C2_license_theorem :
    (∀ (j : Journal),
       docLookup (fmt_journal j) "license" =
         some (match j.permissions with
               | none => Val.vs "undefined"
               | some d =>
                 if d.isEmpty then Val.vs "undefined"
                 else
                   match dictGet d "id" with
                   | some s => Val.vs s
                   | none => Val.vnull)) ∧
    (∀ (iso : IsoTable) (a : Article),
       docLookup (fmt_document iso a) "license" =
         some (match a.permissions with
               | none => Val.vs "undefined"
               | some d =>
                 if d.isEmpty then Val.vs "undefined"
                 else
                   match dictGet d "id" with
                   | some s => Val.vs s
                   | none => Val.vnull)) := by
  constructor
  · intro j
    have e : docLookup (fmt_journal j) "license" =
        some (valOfOptStr (licenseOf j.permissions)) := rfl
    rw [e, valOfOptStr_licenseOf]
  · intro iso a
    have e : docLookup (fmt_document iso a) "license" =
        some (valOfOptStr (licenseOf a.permissions)) := rfl
    rw [e, valOfOptStr_licenseOf]

/-- C3 counterexample: in history mode, an item whose history entry is
not a delete and whose accompanying record is null does not yield a
silent skip: the step applies the mapping to the null record, which
raises (attribute access on `None`), giving an error result instead of
the `ok []` the claim's "the mapping function is not applied to the null
record" would require. -/
theorem C3_null_record_counterexample :
    documentsHistoryArticle iso0
      (⟨"change", "scl", some "S0100"⟩, (none : Option Article)) =
      StepResult.err [] ∧
    documentsHistoryArticle iso0
      (⟨"change", "scl", some "S0100"⟩, (none : Option Article)) ≠
      StepResult.ok [] := by
  refine ⟨rfl, ?_⟩
  intro hcon
  cases hcon

/-- C3 amended: in history mode, for every source item whose delete
branch neither skips it (empty resolved code) nor raises in the
resolution itself, the adapter applies the mapping to the accompanying
record unconditionally — regardless of delete-or-not. A non-delete item
with a non-null record yields exactly one `add` event carrying the mapped
record; a non-skipped delete item appends that same `add` event after its
delete event. In either case a null record makes the mapping application
raise, terminating the stream with no `add` event, rather than the item
being skipped. -/
theorem C3_add_event_theorem {γ R : Type} (codeKey : String)
    (resolve : γ → Option String) (fmt : R → List (String × Val))
    (h : HistoryEntry γ) (r : Option R) :
    (h.event ≠ "delete" →
       documentsHistoryStep codeKey resolve fmt (h, r) =
         match r with
         | some x => StepResult.ok [Event.add (fmt x)]
         | none => StepResult.err []) ∧
    (∀ code, h.event = "delete" → resolve h.code = some code → code ≠ "" →
       documentsHistoryStep codeKey resolve fmt (h, r) =
         match r with
         | some x => StepResult.ok
             [ Event.del [ ("collection", Val.vs h.collection)
                         , (codeKey, Val.vs code)
                         , ("id", Val.vs (h.collection ++ "_" ++ code)) ]
             , Event.add (fmt x) ]
         | none => StepResult.err
             [Event.del [ ("collection", Val.vs h.collection)
                        , (codeKey, Val.vs code)
                        , ("id", Val.vs (h.collection ++ "_" ++ code)) ]]) := by
  constructor
  · intro hev
    cases r <;> simp [documentsHistoryStep, hev]
  · intro code hev hres hc
    cases r <;> simp [documentsHistoryStep, hev, hres, hc]

/-- C3 witness: `C3_add_event_theorem` on the article endpoint, at a
concrete non-delete entry with a present record, and at a concrete
non-skipped delete entry with a present record (the add event follows
the delete event). -/
theorem C3_add_event_witness :
    documentsHistoryArticle iso0 (⟨"change", "scl", some "S0100"⟩, some art0) =
      StepResult.ok [Event.add (fmt_document iso0 art0)] ∧
    documentsHistoryArticle iso0 (⟨"delete", "scl", some "S0100"⟩, some art0) =
      StepResult.ok
        [ Event.del [ ("collection", Val.vs "scl")
                    , ("code", Val.vs "S0100")
                    , ("id", Val.vs "scl_S0100") ]
        , Event.add (fmt_document iso0 art0) ] :=
  ⟨( C3_add_event_theorem "code" articleResolve (fmt_document iso0)
      ⟨"change", "scl", some "S0100"⟩ (some art0)).1 (by decide),
   ( C3_add_event_theorem "code" articleResolve (fmt_document iso0)
      ⟨"delete", "scl", some "S0100"⟩ (some art0)).2 "S0100" rfl rfl (by decide)⟩

/-- C4 counterexample: for the invalid selector `"banana"`, `run` still
issues the index-creation call to the search index before rejecting the
selector, so the claim that no index call is made is false. -/
theorem C4_invalid_type_counterexample :
    ¬("banana" = "journal" ∨ "banana" = "article") ∧
    ExtCall.indicesCreate ∈ run bAllOk "banana" [] := by
  refine ⟨by decide, by decide⟩

/-- C4 amended: for an entity type selector that is neither `"article"`
nor `"journal"`, `run` makes exactly one external call — the
index-creation attempt, which precedes the selector check — and is then
rejected before any metadata-source call and before any index write. -/
theorem C4_invalid_type_theorem (b : ESBehavior) (doc_type : String)
    (events : List RunEvent) (h1 : doc_type ≠ "journal")
    (h2 : doc_type ≠ "article") :
    run b doc_type events = [ExtCall.indicesCreate] := by
  simp [run, h1, h2]

/-- C4 witness: `C4_invalid_type_theorem` at the selector `"banana"`. -/
theorem C4_invalid_type_witness :
    run bAllOk "banana" [RunEvent.radd "x"] = [ExtCall.indicesCreate] :=
  C4_invalid_type_theorem bAllOk "banana" [RunEvent.radd "x"]
    (by decide) (by decide)

/-- C5: in history mode, for a delete entry whose endpoint-specific code
resolution succeeds (article: `history.code or ''`; journal: first
element of `history.code`), an empty resolved code skips the item
entirely (zero events) and a non-empty code yields exactly one delete
event, whose `id` is the collection, an underscore, and the code
concatenated. -/
theorem C5_delete_event_theorem :
    (∀ (iso : IsoTable) (h : HistoryEntry (Option String)) (r : Option Article),
       h.event = "delete" →
       ((pyOr h.code "" = "" →
           documentsHistoryArticle iso (h, r) = StepResult.ok []) ∧
        (pyOr h.code "" ≠ "" →
           (documentsHistoryArticle iso (h, r)).events.filter Event.isDel =
             [Event.del [ ("collection", Val.vs h.collection)
                        , ("code", Val.vs (pyOr h.code ""))
                        , ("id", Val.vs (h.collection ++ "_" ++ pyOr h.code "")) ]]))) ∧
    (∀ (h : HistoryEntry (List String)) (r : Option Journal) (c : String)
       (cs : List String), h.event = "delete" → h.code = c :: cs →
       ((c = "" → documentsHistoryJournal (h, r) = StepResult.ok []) ∧
        (c ≠ "" →
           (documentsHistoryJournal (h, r)).events.filter Event.isDel =
             [Event.del [ ("collection", Val.vs h.collection)
                        , ("issn", Val.vs c)
                        , ("id", Val.vs (h.collection ++ "_" ++ c)) ]]))) := by
  constructor
  · intro iso h r hev
    constructor
    · intro hcode
      simp [documentsHistoryArticle, documentsHistoryStep, articleResolve,
            hev, hcode]
    · intro hcode
      cases r <;>
        simp [documentsHistoryArticle, documentsHistoryStep, articleResolve,
              hev, hcode, StepResult.events, Event.isDel, List.filter]
  · intro h r c cs hev hcode
    have hres : journalResolve h.code = some (strOr c "") := by
      rw [hcode]
      rfl
    constructor
    · intro hc
      have : strOr c "" = "" := by rw [hc]; rfl
      simp [documentsHistoryJournal, documentsHistoryStep, hev, hres, this]
    · intro hc
      have hs : strOr c "" = c := by
        unfold strOr
        rw [if_neg hc]
      cases r <;>
        simp [documentsHistoryJournal, documentsHistoryStep, hev, hres, hs, hc,
              StepResult.events, Event.isDel, List.filter]

/-- C5 witness: `C5_delete_event_theorem` at a concrete article delete
entry with a non-empty code (one delete event with the concatenated id)
and at a concrete journal delete entry whose first code element is empty
(zero events). -/
theorem C5_delete_event_witness :
    (documentsHistoryArticle iso0
       (⟨"delete", "scl", some "S0100"⟩, (none : Option Article))).events.filter
        Event.isDel =
      [Event.del [ ("collection", Val.vs "scl")
                 , ("code", Val.vs "S0100")
                 , ("id", Val.vs "scl_S0100") ]] ∧
    documentsHistoryJournal (⟨"delete", "scl", [""]⟩, (none : Option Journal)) =
      StepResult.ok [] :=
  ⟨(C5_delete_event_theorem.1 iso0 ⟨"delete", "scl", some "S0100"⟩ none rfl).2
     (by decide),
   (C5_delete_event_theorem.2 ⟨"delete", "scl", [""]⟩ none "" [] rfl rfl).1 rfl⟩

/-- C6: in the `run` loop, every delete outcome (success, not-found, or
any other error) is swallowed and processing continues with the next
event; an upsert error terminates the run immediately, leaving later
events unprocessed; and when every upsert succeeds the loop performs
exactly one action per event, in order, with no retry and no abort. -/
theorem C6_run_error_policy_theorem (b : ESBehavior) :
    (∀ (i : String) (rest : List RunEvent),
       runLoop b (RunEvent.rdel i :: rest) =
         (delAction b i :: (runLoop b rest).1, (runLoop b rest).2)) ∧
    (∀ (i : String) (rest : List RunEvent), b.add i = AddResult.error →
       runLoop b (RunEvent.radd i :: rest) = ([], true)) ∧
    (∀ (evs : List RunEvent),
       (∀ i, RunEvent.radd i ∈ evs → b.add i = AddResult.ok) →
       runLoop b evs = (evs.map (eventAction b), false)) := by
  refine ⟨fun i rest => rfl, fun i rest h => by simp [runLoop, h], ?_⟩
  intro evs
  induction evs with
  | nil => intro _; rfl
  | cons e rest ih =>
    intro h
    have ih' := ih (fun j hj => h j (List.mem_cons_of_mem _ hj))
    cases e with
    | rdel i => simp [runLoop, ih', eventAction]
    | radd i =>
      have ha : b.add i = AddResult.ok := h i (List.mem_cons_self _ _)
      simp [runLoop, ha, ih', eventAction]

/-- C6 witness: `C6_run_error_policy_theorem` with a failing upsert (the
run aborts at once) and on an all-ok index with a delete followed by an
add (both processed, one action each, no abort). -/
theorem C6_run_error_policy_witness :
    runLoop bAddFail [RunEvent.radd "x", RunEvent.rdel "y"] = ([], true) ∧
    runLoop bAllOk [RunEvent.rdel "a", RunEvent.radd "b"] =
      ([LoopAction.removed "a", LoopAction.indexed "b"], false) :=
  ⟨(C6_run_error_policy_theorem bAddFail).2.1 "x" [RunEvent.rdel "y"] rfl,
   (C6_run_error_policy_theorem bAllOk).2.2 [RunEvent.rdel "a", RunEvent.radd "b"]
     (fun _ _ => rfl)⟩

end LoadData
